import Mathlib

/-!
Verification of the GDP-dashboard script (src/streamlit_app.py) against its
natural-language specification.

Shallow embedding conventions:
* A pandas dataframe row is a `Record`; the dataframe is a `List Record`
  in file order.
* The `Year` column is coerced with `pd.to_numeric(..., errors="coerce")`,
  so a year is `Option Int` (`none` = NaN after failed coercion).  A pandas
  comparison `NaN >= x` / `NaN <= x` / `NaN == x` is `False`, which the
  helpers `yearGeB`, `yearLeB` and the `== some t` tests mirror.
* The `GDP` column may be missing, so it is `Option ℚ`; `dropna(subset=["GDP"])`
  is `dropnaGDP`.  Rationals stand in for the script's floats: every claim
  proved here is about exact arithmetic the floats perform exactly, except
  where a doc comment notes otherwise (division by zero: `ℚ` division is
  total with junk value `0`, while numpy produces a non-finite float; both
  disagree with every finite expected value, which is all the theorems use).
* `sort_values('Year')` is the stable `sortByYear` (pandas' quicksort is not
  guaranteed stable, but no claim distinguishes the order of equal-year rows).
-/

namespace GdpDashboard

/-- One row of the loaded dataframe: the four columns kept by `get_gdp_data`. -/
structure Record where
  country_name : String
  country_code : String
  year : Option Int
  gdp : Option ℚ
deriving DecidableEq, Repr

/-- Embeds the pandas test `gdp_df['Year'] >= b`: `False` on NaN years. -/
def yearGeB (y : Option Int) (b : Int) : Bool :=
  match y with
  | some v => b ≤ v
  | none => false

/-- Embeds the pandas test `gdp_df['Year'] <= b`: `False` on NaN years. -/
def yearLeB (y : Option Int) (b : Int) : Bool :=
  match y with
  | some v => v ≤ b
  | none => false

/-- Embeds lines 90-94 of the script: boolean-mask filtering of the dataframe by
`Country Code ∈ selected` and `from_year <= Year <= to_year`. -/
def filtered_gdp_df (df : List Record) (from_year to_year : Int)
    (codes : List String) : List Record :=
  df.filter (fun r =>
    codes.contains r.country_code && yearGeB r.year from_year && yearLeB r.year to_year)

/-- Embeds `.dropna(subset=["GDP"])`: keep only rows with a present GDP value. -/
def dropnaGDP (df : List Record) : List Record :=
  df.filter (fun r => r.gdp.isSome)

/-- Embeds the chart branch (lines 98-120): if the filtered frame is empty the
script shows the warning (`none`); otherwise it renders a chart of the
filtered frame after dropping missing-GDP rows (`some data`). -/
def chartSection (df : List Record) (from_year to_year : Int)
    (codes : List String) : Option (List Record) :=
  let fd := filtered_gdp_df df from_year to_year codes
  if fd.isEmpty then none else some (dropnaGDP fd)

/-- Spec-side predicate for claim C1: the record's year is present and lies in
the inclusive range `[f, t]`. -/
def yearWithin (y : Option Int) (f t : Int) : Prop :=
  ∃ v, y = some v ∧ f ≤ v ∧ v ≤ t

instance (y : Option Int) (f t : Int) : Decidable (yearWithin y f t) :=
  match y with
  | none => isFalse (by simp [yearWithin])
  | some v => decidable_of_iff (f ≤ v ∧ v ≤ t) (by simp [yearWithin])

theorem filterPred_eq_specPred (f t : Int) (codes : List String) (r : Record) :
    (codes.contains r.country_code && yearGeB r.year f && yearLeB r.year t)
      = decide (r.country_code ∈ codes ∧ yearWithin r.year f t) := by
  cases hy : r.year with
  | none => simp [yearGeB, yearWithin, hy]
  | some v =>
    simp [yearGeB, yearLeB, yearWithin, hy, List.elem_eq_mem,
      decide_eq_true_iff, Bool.and_assoc]

/-- C1: the filter operation returns exactly the records whose country code is
in the selection and whose year is present and within the inclusive bounds,
keeping the original relative order (it is a sublist of the input). -/
theorem filter_exact_subset_ordered (df : List Record) (f t : Int)
    (codes : List String) :
    filtered_gdp_df df f t codes
        = df.filter (fun r => decide (r.country_code ∈ codes ∧ yearWithin r.year f t))
      ∧ (filtered_gdp_df df f t codes).Sublist df := by
  constructor
  · exact List.filter_congr (fun r _ => filterPred_eq_specPred f t codes r)
  · exact List.filter_sublist df

/-- C4: filtering with an empty country selection returns the empty list, for
every record set and every pair of year bounds. -/
theorem filter_empty_codes (df : List Record) (f t : Int) :
    filtered_gdp_df df f t [] = [] := by
  simp [filtered_gdp_df]

/-- C7: when the year bounds are inverted (`to_year < from_year`) the filter
yields the empty list (and, being a total function, does not crash). -/
theorem filter_inverted_range (df : List Record) (f t : Int)
    (codes : List String) (h : t < f) :
    filtered_gdp_df df f t codes = [] := by
  refine List.filter_eq_nil_iff.mpr (fun r _ hr => ?_)
  cases hy : r.year with
  | none => simp [yearGeB, hy] at hr
  | some v =>
    simp [yearGeB, yearLeB, hy] at hr
    omega

theorem filter_inverted_range_witness :
    (3 : Int) < 5 ∧ filtered_gdp_df [⟨"Alpha", "AAA", some 4, some 1⟩] 5 3 ["AAA"] = [] :=
  ⟨by decide, filter_inverted_range [⟨"Alpha", "AAA", some 4, some 1⟩] 5 3 ["AAA"] (by decide)⟩

/-- C9: a record whose year failed numeric coercion (is `none`) is excluded
from every filter result, for all bounds and selections. -/
theorem missing_year_never_filtered (df : List Record) (f t : Int)
    (codes : List String) (r : Record) (h : r.year = none) :
    r ∉ filtered_gdp_df df f t codes := by
  intro hmem
  have := (List.mem_filter.mp hmem).2
  simp [yearGeB, h] at this

theorem missing_year_never_filtered_witness :
    (⟨"Alpha", "AAA", none, some 1⟩ : Record).year = none ∧
      (⟨"Alpha", "AAA", none, some 1⟩ : Record) ∉
        filtered_gdp_df [⟨"Alpha", "AAA", none, some 1⟩] 1960 2022 ["AAA"] :=
  ⟨rfl, missing_year_never_filtered [⟨"Alpha", "AAA", none, some 1⟩] 1960 2022 ["AAA"]
    ⟨"Alpha", "AAA", none, some 1⟩ rfl⟩

/-- Claim C6 as stated fails: the script tests emptiness of the filtered frame
BEFORE `dropna`, so a selection whose rows all have missing GDP renders an
empty chart with no warning.  Witnessing record set: one in-range row with
missing GDP. -/
def exDfC6 : List Record := [⟨"Alpha", "AAA", some 2000, none⟩]

theorem chart_warning_counterexample :
    dropnaGDP (filtered_gdp_df exDfC6 2000 2000 ["AAA"]) = [] ∧
      chartSection exDfC6 2000 2000 ["AAA"] ≠ none := by
  decide

/-- C6 (amended): the "no data" warning is shown exactly when the year-range
and country filter result is empty BEFORE missing-GDP rows are removed; a
non-empty filter result whose GDP values are all missing is charted (as an
empty data set) without the notice. -/
theorem chart_warning_iff_prefilter_empty (df : List Record) (f t : Int)
    (codes : List String) :
    chartSection df f t codes = none ↔ filtered_gdp_df df f t codes = [] := by
  simp only [chartSection]
  split <;> rename_i h <;> simp_all [List.isEmpty_iff]

/-- Minimum of an integer list, `none` on the empty list (embeds pandas
`.min()`, which skips NaN because `minYear` is applied after `filterMap`). -/
def listMinInt : List Int → Option Int
  | [] => none
  | y :: ys =>
    match listMinInt ys with
    | none => some y
    | some m => some (min y m)

/-- Maximum of an integer list, `none` on the empty list. -/
def listMaxInt : List Int → Option Int
  | [] => none
  | y :: ys =>
    match listMaxInt ys with
    | none => some y
    | some m => some (max y m)

/-- Embeds `gdp_df['Year'].min()` (line 69): minimum over the present years. -/
def minYear (df : List Record) : Option Int :=
  listMinInt (df.filterMap (fun r => r.year))

/-- Embeds `gdp_df['Year'].max()` (line 70): maximum over the present years. -/
def maxYear (df : List Record) : Option Int :=
  listMaxInt (df.filterMap (fun r => r.year))

/-- Embeds pandas `.unique()`: first occurrence of each value, in order. -/
def uniqueFirstAux (seen : List String) : List String → List String
  | [] => []
  | x :: xs =>
    if seen.contains x then uniqueFirstAux seen xs
    else x :: uniqueFirstAux (x :: seen) xs

def uniqueFirst (l : List String) : List String := uniqueFirstAux [] l

/-- Embeds `gdp_df['Country Code'].unique()` (line 79). -/
def distinctCodes (df : List Record) : List String :=
  uniqueFirst (df.map (fun r => r.country_code))

theorem listMinInt_eq_none (l : List Int) : listMinInt l = none ↔ l = [] := by
  cases l with
  | nil => simp [listMinInt]
  | cons y ys =>
    rw [listMinInt]
    cases hys : listMinInt ys <;> simp

theorem listMaxInt_eq_none (l : List Int) : listMaxInt l = none ↔ l = [] := by
  cases l with
  | nil => simp [listMaxInt]
  | cons y ys =>
    rw [listMaxInt]
    cases hys : listMaxInt ys <;> simp

theorem listMinInt_le : ∀ (l : List Int) (m : Int), listMinInt l = some m →
    ∀ y ∈ l, m ≤ y := by
  intro l
  induction l with
  | nil => simp [listMinInt]
  | cons y ys ih =>
    intro m hm z hz
    rw [listMinInt] at hm
    cases hys : listMinInt ys with
    | none =>
      rw [hys] at hm
      simp at hm
      have hnil : ys = [] := (listMinInt_eq_none ys).mp hys
      subst hnil
      simp at hz
      omega
    | some m2 =>
      rw [hys] at hm
      simp at hm
      subst hm
      rcases List.mem_cons.mp hz with hzy | hzys
      · subst hzy
        exact min_le_left _ _
      · exact le_trans (min_le_right _ _) (ih m2 hys z hzys)

theorem le_listMaxInt : ∀ (l : List Int) (m : Int), listMaxInt l = some m →
    ∀ y ∈ l, y ≤ m := by
  intro l
  induction l with
  | nil => simp [listMaxInt]
  | cons y ys ih =>
    intro m hm z hz
    rw [listMaxInt] at hm
    cases hys : listMaxInt ys with
    | none =>
      rw [hys] at hm
      simp at hm
      have hnil : ys = [] := (listMaxInt_eq_none ys).mp hys
      subst hnil
      simp at hz
      omega
    | some m2 =>
      rw [hys] at hm
      simp at hm
      subst hm
      rcases List.mem_cons.mp hz with hzy | hzys
      · subst hzy
        exact le_max_left _ _
      · exact le_trans (ih m2 hys z hzys) (le_max_right _ _)

/-- Claim C5 as stated fails: at full range with all codes selected, the filter
also drops rows whose YEAR is missing (a NaN year satisfies neither bound), so
the result is not "all non-missing-GDP records" when such a row exists.  The
second record below has a missing year but a present GDP. -/
def exDfC5 : List Record :=
  [⟨"Alpha", "AAA", some 2000, some 1⟩, ⟨"Beta", "BBB", none, some 5⟩]

theorem full_range_counterexample :
    minYear exDfC5 = some 2000 ∧ maxYear exDfC5 = some 2000 ∧
      distinctCodes exDfC5 = ["AAA", "BBB"] ∧
      dropnaGDP (filtered_gdp_df exDfC5 2000 2000 ["AAA", "BBB"])
        ≠ exDfC5.filter (fun r => r.gdp.isSome) := by
  decide

/-- C5 (amended): filtering with the dataset's min and max year as bounds and a
selection containing every record's code, then dropping missing-GDP rows,
yields exactly the records with BOTH a present year and a present GDP value
(missing-year rows are excluded as well; missing-GDP rows are dropped, not
zero-filled). -/
theorem full_range_filter_drops_missing (df : List Record) (f t : Int)
    (codes : List String) (hmin : minYear df = some f) (hmax : maxYear df = some t)
    (hall : ∀ r ∈ df, r.country_code ∈ codes) :
    dropnaGDP (filtered_gdp_df df f t codes)
      = df.filter (fun r => r.year.isSome && r.gdp.isSome) := by
  unfold dropnaGDP filtered_gdp_df
  rw [List.filter_filter]
  refine List.filter_congr (fun r hr => ?_)
  cases hy : r.year with
  | none => simp [yearGeB, hy]
  | some v =>
    have hvmem : v ∈ df.filterMap (fun r => r.year) :=
      List.mem_filterMap.mpr ⟨r, hr, hy⟩
    have h1 : f ≤ v := listMinInt_le _ f hmin v hvmem
    have h2 : v ≤ t := le_listMaxInt _ t hmax v hvmem
    have hc : r.country_code ∈ codes := hall r hr
    simp [yearGeB, yearLeB, hy, hc, h1, h2, List.elem_eq_mem]

def exDfC5w : List Record :=
  [⟨"Alpha", "AAA", some 2000, some 1⟩, ⟨"Alpha", "AAA", some 2005, none⟩]

theorem full_range_filter_drops_missing_witness :
    dropnaGDP (filtered_gdp_df exDfC5w 2000 2005 ["AAA"])
      = exDfC5w.filter (fun r => r.year.isSome && r.gdp.isSome) :=
  full_range_filter_drops_missing exDfC5w 2000 2005 ["AAA"]
    (by decide) (by decide) (by decide)

/-- Ordering on the `Year` column used by `sort_values('Year')`: present years
by `≤`, missing years after all present ones (pandas `na_position='last'`). -/
def yearLeOpt (a b : Option Int) : Bool :=
  match a, b with
  | some x, some y => x ≤ y
  | some _, none => true
  | none, none => true
  | none, some _ => false

def insertByYear (r : Record) : List Record → List Record
  | [] => [r]
  | s :: rest =>
    if yearLeOpt r.year s.year then r :: s :: rest
    else s :: insertByYear r rest

/-- Embeds `.sort_values('Year')` as a stable insertion sort on the year key. -/
def sortByYear : List Record → List Record
  | [] => []
  | r :: rest => insertByYear r (sortByYear rest)

/-- Embeds lines 146-150 of the script: the per-country restriction used by the
metrics loop — rows of the given country within the inclusive year range, with
missing-GDP rows dropped and the rest sorted ascending by year. -/
def country_data (df : List Record) (country : String)
    (from_year to_year : Int) : List Record :=
  sortByYear (dropnaGDP (df.filter (fun r =>
    r.country_code == country && yearGeB r.year from_year && yearLeB r.year to_year)))

/-- The pair of raw GDP values the metrics loop extracts (lines 156-163):
`first_value` from the earliest row of the restriction, `last_value` from the
first row whose year equals `to_year` exactly. -/
structure GrowthMetric where
  first_value : ℚ
  last_value : ℚ
deriving DecidableEq, Repr

/-- GDP value of a row known to have survived `dropna` (default 0 never used
on such rows). -/
def gdpVal (r : Record) : ℚ := r.gdp.getD 0

/-- Embeds lines 152-166 of the script for one country: `none` when the metric
is rendered as `n/a` (empty restriction, or no row with year exactly
`to_year`), otherwise the `(first_value, last_value)` pair.  The displayed
delta is `last_value / first_value`, computed by `growth` below with no guard,
exactly as the source divides unguarded. -/
def derive (df : List Record) (country : String)
    (from_year to_year : Int) : Option GrowthMetric :=
  match country_data df country from_year to_year with
  | [] => none
  | r0 :: rest =>
    match (r0 :: rest).filter (fun r => r.year == some to_year) with
    | [] => none
    | e0 :: _ => some ⟨gdpVal r0, gdpVal e0⟩

/-- The growth ratio of lines 164-166 (`last_gdp / first_gdp`; the `/ 1e9`
display scaling cancels).  `ℚ` division is total with `x / 0 = 0`, standing
for the source's unguarded float division (which yields `inf`/`nan` there);
theorems only ever assert the ratio's value when `first_value ≠ 0`. -/
def growth (m : GrowthMetric) : ℚ := m.last_value / m.first_value

/-- C2: the metric is `n/a` exactly when the country's restricted non-missing
record set has no row whose year equals `to_year`; and when a metric is
produced, its `last_value` is the GDP of a row whose year is exactly
`to_year` (never a merely-latest earlier year). -/
theorem derive_exact_year_required (df : List Record) (c : String) (f t : Int) :
    (derive df c f t = none ↔ ∀ r ∈ country_data df c f t, r.year ≠ some t)
      ∧ (∀ m, derive df c f t = some m →
          ∃ r ∈ country_data df c f t, r.year = some t ∧ m.last_value = gdpVal r) := by
  unfold derive
  cases hcd : country_data df c f t with
  | nil => simp
  | cons r0 rest =>
    cases hex : (r0 :: rest).filter (fun r => r.year == some t) with
    | nil =>
      have hnone : ∀ r ∈ r0 :: rest, r.year ≠ some t := by
        intro r hr
        have := List.filter_eq_nil_iff.mp hex r hr
        simpa using this
      simp only [hex]
      constructor
      · exact ⟨fun _ => hnone, fun _ => trivial⟩
      · intro m hm
        simp at hm
    | cons e0 etl =>
      have he0 : e0 ∈ (r0 :: rest).filter (fun r => r.year == some t) := by
        rw [hex]
        exact List.mem_cons_self e0 etl
      have he0mem : e0 ∈ r0 :: rest := List.mem_of_mem_filter he0
      have he0year : e0.year = some t := by
        have := List.of_mem_filter he0
        simpa using this
      simp only [hex]
      constructor
      · constructor
        · intro h
          simp at h
        · intro h
          exact absurd he0year (h e0 he0mem)
      · intro m hm
        have hm' : m = ⟨gdpVal r0, gdpVal e0⟩ := by
          simpa using hm.symm
        exact ⟨e0, he0mem, he0year, by rw [hm']⟩

def exDfC2 : List Record := [⟨"Morocco", "MAR", some 2000, some 3⟩]

theorem derive_exact_year_required_witness :
    ∃ r ∈ country_data exDfC2 "MAR" 2000 2000,
      r.year = some 2000 ∧ (⟨3, 3⟩ : GrowthMetric).last_value = gdpVal r :=
  (derive_exact_year_required exDfC2 "MAR" 2000 2000).2 ⟨3, 3⟩ (by decide)

/-- Claim C3 as stated fails when the single record's GDP value is zero: the
unguarded division computes `0 / 0`, which is not `1.0` (the source renders
`nanx`, not `1.00x`; in the `ℚ` model the total division yields `0 ≠ 1`). -/
def exDfC3 : List Record := [⟨"Morocco", "MAR", some 2000, some 0⟩]

theorem single_record_growth_counterexample :
    country_data exDfC3 "MAR" 1990 2000 = [⟨"Morocco", "MAR", some 2000, some 0⟩] ∧
      (derive exDfC3 "MAR" 1990 2000).map growth ≠ some 1 := by
  have h : derive exDfC3 "MAR" 1990 2000 = some ⟨0, 0⟩ := by decide
  refine ⟨by decide, ?_⟩
  rw [h]
  simp [growth]

/-- C3 (amended): when the country's restriction is exactly one record, that
record's year equals `to_year`, and its GDP value is NONZERO, the derived
growth ratio is `1` (displayed `1.00x`): first and last value come from the
same row. -/
theorem single_record_growth_one (df : List Record) (c : String) (f t : Int)
    (r : Record) (h1 : country_data df c f t = [r]) (h2 : r.year = some t)
    (h3 : gdpVal r ≠ 0) :
    ∃ m, derive df c f t = some m ∧ growth m = 1 := by
  refine ⟨⟨gdpVal r, gdpVal r⟩, ?_, div_self h3⟩
  unfold derive
  rw [h1]
  simp [h2]

def exDfC3w : List Record := [⟨"Morocco", "MAR", some 2000, some 5⟩]

theorem single_record_growth_one_witness :
    ∃ m, derive exDfC3w "MAR" 2000 2000 = some m ∧ growth m = 1 :=
  single_record_growth_one exDfC3w "MAR" 2000 2000
    ⟨"Morocco", "MAR", some 2000, some 5⟩ (by decide) rfl (by norm_num [gdpVal])

def exDfC8 : List Record :=
  [⟨"Alpha", "AAA", some 2000, some 0⟩, ⟨"Alpha", "AAA", some 2022, some 5⟩]

/-- C8: the division-by-zero branch is reachable: on this record set the
deriver returns a metric (not `n/a`) whose `first_value` is zero, and the
unguarded `growth` division `last_value / first_value` is then performed on a
zero divisor — no "not available" result or infinity marker is produced. -/
theorem division_by_zero_reachable :
    derive exDfC8 "AAA" 2000 2022 ≠ none ∧
      ∃ m, derive exDfC8 "AAA" 2000 2022 = some m ∧
        m.first_value = 0 ∧ m.last_value ≠ 0 := by
  refine ⟨?_, ⟨⟨0, 5⟩, ?_, rfl, ?_⟩⟩ <;> decide

/-- Embeds Python's `str.replace(' ', '+')` (line 186): the pattern is a single
character, so the replacement is a per-character map. -/
def spaceToPlus (s : String) : String :=
  String.mk (s.data.map (fun c => if c = ' ' then '+' else c))

/-- Embeds line 179: `gdp_df[gdp_df['Country Code'].isin(selected)]['Country
Name'].unique()` — the distinct country names (first occurrence order) among
records whose code is selected, over the FULL dataset. -/
def selected_country_names (df : List Record) (codes : List String) : List String :=
  uniqueFirst ((df.filter (fun r => codes.contains r.country_code)).map
    (fun r => r.country_name))

/-- Embeds lines 185-186: the search URL built for one country name. -/
def search_url (country : String) : String :=
  "https://www.google.com/search?q=" ++ spaceToPlus (country ++ " GDP site:news.google.com")

/-- Embeds the news section (lines 179-187).  The year-range inputs are in
scope in the script but unread by this section; they are parameters here so
that independence from them is a provable statement. -/
def newsSection (df : List Record) (from_year to_year : Int)
    (codes : List String) : List String :=
  (selected_country_names df codes).map search_url

/-- Spec-side URL shape for claim C10: query is the country name with spaces
replaced by `+`, followed by `+GDP+site:news.google.com`. -/
def urlOfNameSpec (country : String) : String :=
  "https://www.google.com/search?q=" ++ spaceToPlus country ++ "+GDP+site:news.google.com"

theorem spaceToPlus_append (a b : String) :
    spaceToPlus (a ++ b) = spaceToPlus a ++ spaceToPlus b := by
  apply String.ext
  simp [spaceToPlus, String.data_append]

theorem spaceToPlus_query_suffix :
    spaceToPlus " GDP site:news.google.com" = "+GDP+site:news.google.com" := by
  decide

theorem search_url_eq_spec (c : String) : search_url c = urlOfNameSpec c := by
  unfold search_url urlOfNameSpec
  rw [spaceToPlus_append, spaceToPlus_query_suffix, String.append_assoc]

theorem uniqueFirst_ne_nil (l : List String) (h : l ≠ []) : uniqueFirst l ≠ [] := by
  cases l with
  | nil => exact absurd rfl h
  | cons x xs =>
    unfold uniqueFirst uniqueFirstAux
    simp

/-- C10: the news links are computed from the full dataset restricted only by
the selected codes — the same links for every pair of year ranges; they are
exactly one URL per distinct matching country name, each of the spec's shape
(spaces of the query turned into `+`); and when some selected code occurs in
the dataset the link list is non-empty, even if a year-range filter would
leave the chart without data. -/
theorem news_links_from_full_dataset (df : List Record) (f t f2 t2 : Int)
    (codes : List String) (h : ∃ r ∈ df, r.country_code ∈ codes) :
    newsSection df f t codes = newsSection df f2 t2 codes ∧
      newsSection df f t codes = (selected_country_names df codes).map urlOfNameSpec ∧
      newsSection df f t codes ≠ [] := by
  refine ⟨rfl, ?_, ?_⟩
  · exact List.map_congr_left (fun c _ => search_url_eq_spec c)
  · intro hsec
    unfold newsSection at hsec
    rw [List.map_eq_nil_iff] at hsec
    obtain ⟨r, hr, hc⟩ := h
    have hmem : r ∈ df.filter (fun x => codes.contains x.country_code) :=
      List.mem_filter.mpr ⟨hr, by simpa [List.elem_eq_mem] using hc⟩
    have hmapne : (df.filter (fun x => codes.contains x.country_code)).map
        (fun x => x.country_name) ≠ [] := by
      intro h0
      rw [List.map_eq_nil_iff] at h0
      rw [h0] at hmem
      exact absurd hmem (List.not_mem_nil r)
    refine uniqueFirst_ne_nil _ hmapne ?_
    simpa [selected_country_names] using hsec

def exDfC10 : List Record := [⟨"Saudi Arabia", "SAU", some 2000, some 1⟩]

theorem news_links_from_full_dataset_witness :
    newsSection exDfC10 1960 2022 ["SAU"] = newsSection exDfC10 1990 1995 ["SAU"] ∧
      newsSection exDfC10 1960 2022 ["SAU"]
        = (selected_country_names exDfC10 ["SAU"]).map urlOfNameSpec ∧
      newsSection exDfC10 1960 2022 ["SAU"] ≠ [] :=
  news_links_from_full_dataset exDfC10 1960 2022 1990 1995 ["SAU"] (by decide)

end GdpDashboard
